import Mathlib

/-!
Verification of the form-fixture generator script
(`src/scripts/generate_simple_forms.py` of a3tai/mcp-pdf-reader).

The script emits four PDF documents, each produced by one generator
function as a straight-line sequence of canvas drawing operations and
AcroForm field placements.  We shallowly embed each generator as the list
of operations it issues, in source order.  A `FormField` records the
arguments of one `c.acroForm.textfield` / `checkbox` / `radio` / `choice`
call; a `drawOp` records static drawing (`drawString`, `line`, `setFont`).
Filesystem output (`canvas.Canvas(output_path)`, `c.save()`) and the
per-file confirmation `print` are side effects carrying no field data and
are not part of the operation lists; the error handling of `main` is
modelled separately below.

Appearance-only arguments that no property concerns (colors,
`forceBorder`, `borderStyle`, `buttonStyle`, `shape`, `annotationFlags`)
are omitted from `FormField`.  Arguments the script leaves to the library's
defaults are recorded as follows: `checkbox` and `radio` take no
width/height in the script, so the widget square is reportlab's default
`size=20`; `fieldFlags`, `maxlen` and `tooltip` are `none` when the call
site does not pass them; a `value` that is not passed is the library
default `""`; `checked`/`selected` defaults to `false`.
-/

/-- Kind of an AcroForm widget: which `c.acroForm.*` method was called. -/
inductive FieldKind where
  | textfield
  | checkbox
  | radio
  | choice
deriving DecidableEq, Repr

/-- Arguments of one AcroForm field-placement call in the script.
Coordinates and sizes are the integer point values hard-coded in the
source (the page is letter, 612 by 792 points, origin bottom-left). -/
structure FormField where
  kind : FieldKind
  name : String
  x : Int
  y : Int
  width : Int
  height : Int
  tooltip : Option String := none
  value : String := ""
  selected : Bool := false
  fieldFlags : Option String := none
  maxlen : Option Nat := none
  options : List (String × String) := []
deriving DecidableEq, Repr

/-- One operation issued by a generator function, in source order. -/
inductive DrawOp where
  | setFont (font : String) (size : Nat)
  | drawString (x y : Int) (text : String)
  | line (x1 y1 x2 y2 : Int)
  | field (f : FormField)
deriving DecidableEq, Repr

/-- Extracts the AcroForm field placements from an operation sequence,
keeping their order. -/
def fieldsOf (ops : List DrawOp) : List FormField :=
  ops.filterMap fun op =>
    match op with
    | .field f => some f
    | _ => none

/-- Operation sequence of `create_basic_form_pdf` (output `basic-form.pdf`). -/
def create_basic_form_pdf : List DrawOp :=
  [ .setFont "Helvetica" 12,
    .drawString 50 750 "Basic Form Example",
    .line 50 745 550 745,
    .drawString 50 700 "Name:",
    .field { kind := .textfield, name := "name", tooltip := some "Enter your name",
             x := 150, y := 695, width := 300, height := 20 },
    .drawString 50 650 "Email:",
    .field { kind := .textfield, name := "email", tooltip := some "Enter your email",
             x := 150, y := 645, width := 300, height := 20 },
    .drawString 50 600 "Subscribe:",
    .field { kind := .checkbox, name := "subscribe", tooltip := some "Check to subscribe",
             x := 150, y := 598, width := 20, height := 20 },
    .drawString 50 550 "Gender:",
    .field { kind := .radio, name := "gender", tooltip := some "Select gender",
             value := "male", selected := false, x := 150, y := 548,
             width := 20, height := 20 },
    .drawString 175 550 "Male",
    .field { kind := .radio, name := "gender", tooltip := some "Select gender",
             value := "female", selected := false, x := 250, y := 548,
             width := 20, height := 20 },
    .drawString 275 550 "Female",
    .drawString 50 500 "Country:",
    .field { kind := .choice, name := "country", tooltip := some "Select your country",
             value := "us", x := 150, y := 495, width := 200, height := 20,
             options := [("us", "United States"), ("ca", "Canada"),
                         ("uk", "United Kingdom")] },
    .drawString 50 400 "Note: Submit buttons would go here in a real form" ]

/-- Operation sequence of `create_text_fields_pdf` (output `text-fields.pdf`). -/
def create_text_fields_pdf : List DrawOp :=
  [ .setFont "Helvetica" 12,
    .drawString 50 750 "Text Field Examples",
    .line 50 745 550 745,
    .drawString 50 700 "Regular Text:",
    .field { kind := .textfield, name := "regularText", tooltip := some "Regular text field",
             x := 200, y := 695, width := 250, height := 20 },
    .drawString 50 650 "Required Field:",
    .field { kind := .textfield, name := "requiredField", tooltip := some "This field is required",
             x := 200, y := 645, width := 250, height := 20,
             fieldFlags := some "required" },
    .drawString 50 600 "Max 10 chars:",
    .field { kind := .textfield, name := "maxLengthField", tooltip := some "Maximum 10 characters",
             x := 200, y := 595, width := 150, height := 20, maxlen := some 10 },
    .drawString 50 550 "Comments:",
    .field { kind := .textfield, name := "comments", tooltip := some "Multiline text field",
             x := 200, y := 470, width := 250, height := 75,
             fieldFlags := some "multiline" },
    .drawString 50 430 "Password:",
    .field { kind := .textfield, name := "password", tooltip := some "Password field",
             x := 200, y := 425, width := 250, height := 20,
             fieldFlags := some "password" },
    .drawString 50 380 "Read-only:",
    .field { kind := .textfield, name := "readOnly", tooltip := some "Read-only field",
             x := 200, y := 375, width := 250, height := 20,
             fieldFlags := some "readOnly", value := "This cannot be changed" } ]

/-- The `states` option list of `create_choice_fields_pdf`. -/
def states : List (String × String) :=
  [ ("", "-- Select State --"),
    ("AL", "Alabama"), ("AK", "Alaska"), ("AZ", "Arizona"),
    ("AR", "Arkansas"), ("CA", "California"), ("CO", "Colorado"),
    ("CT", "Connecticut"), ("DE", "Delaware"), ("FL", "Florida"),
    ("GA", "Georgia"), ("HI", "Hawaii"), ("ID", "Idaho") ]

/-- The `sizes` list of `create_choice_fields_pdf`: label and x offset of
each `size` radio button. -/
def sizes : List (String × Int) :=
  [("S", 50), ("M", 100), ("L", 150), ("XL", 200)]

/-- The `features` list of `create_choice_fields_pdf`: name, label and x
offset of each feature checkbox. -/
def features : List (String × String × Int) :=
  [("feature1", "Feature 1", 0), ("feature2", "Feature 2", 100),
   ("feature3", "Feature 3", 200)]

/-- Models Python's `str.lower()` for the ASCII radio labels of the
script: lowercases each character. -/
def lower (s : String) : String :=
  String.mk (s.data.map Char.toLower)

/-- Operation sequence of `create_choice_fields_pdf`
(output `choice-fields.pdf`).  The two `for` loops of the source become
`List.flatMap` over the loop list, each iteration emitting its radio or
checkbox placement followed by its label `drawString`.  The radio value
is `value.lower()` and `selected=(value == 'M')` as in the source. -/
def create_choice_fields_pdf : List DrawOp :=
  [ .setFont "Helvetica" 12,
    .drawString 50 750 "Choice Field Examples",
    .line 50 745 550 745,
    .drawString 50 700 "Simple Dropdown:",
    .field { kind := .choice, name := "simpleDropdown", tooltip := some "Select an option",
             value := "opt1", x := 200, y := 695, width := 200, height := 20,
             options := [("opt1", "Option 1"), ("opt2", "Option 2"),
                         ("opt3", "Option 3")] },
    .drawString 50 650 "State:",
    .field { kind := .choice, name := "state", tooltip := some "Select your state",
             value := "", x := 200, y := 645, width := 200, height := 20,
             options := states },
    .drawString 50 590 "Size:" ]
  ++ (sizes.flatMap fun p =>
       [ .field { kind := .radio, name := "size", tooltip := some ("Size " ++ p.1),
                  value := lower p.1, selected := p.1 == "M",
                  x := 150 + p.2, y := 588, width := 20, height := 20 },
         .drawString (170 + p.2) 590 p.1 ])
  ++ [ .drawString 50 540 "Features:" ]
  ++ (features.flatMap fun t =>
       [ .field { kind := .checkbox, name := t.1, tooltip := some t.2.1,
                  x := 150 + t.2.2, y := 538, width := 20, height := 20 },
         .drawString (170 + t.2.2) 540 t.2.1 ])

/-- The `countries` option list of `create_mixed_form_pdf`. -/
def countries : List (String × String) :=
  [ ("", "-- Select --"),
    ("us", "United States"),
    ("ca", "Canada"),
    ("mx", "Mexico"),
    ("uk", "United Kingdom"),
    ("de", "Germany"),
    ("fr", "France") ]

/-- Operation sequence of `create_mixed_form_pdf` (output `mixed-form.pdf`).
The footer line interpolates `datetime.now().strftime('%Y-%m-%d %H:%M:%S')`;
we pass the formatted clock reading in as the parameter `now`, the only
run-dependent input of the four generators. -/
def create_mixed_form_pdf (now : String) : List DrawOp :=
  [ .setFont "Helvetica-Bold" 14,
    .drawString 50 750 "Registration Form",
    .line 50 745 550 745,
    .setFont "Helvetica" 11,
    .drawString 50 720 "First Name:",
    .field { kind := .textfield, name := "firstName", x := 130, y := 715,
             width := 150, height := 20, fieldFlags := some "required" },
    .drawString 300 720 "Last Name:",
    .field { kind := .textfield, name := "lastName", x := 380, y := 715,
             width := 150, height := 20, fieldFlags := some "required" },
    .drawString 50 680 "Email:",
    .field { kind := .textfield, name := "emailAddress", x := 130, y := 675,
             width := 400, height := 20, fieldFlags := some "required" },
    .drawString 50 640 "Age:",
    .field { kind := .textfield, name := "age", x := 130, y := 635,
             width := 50, height := 20, maxlen := some 3 },
    .drawString 200 640 "Country:",
    .field { kind := .choice, name := "countrySelect", value := "",
             x := 280, y := 635, width := 150, height := 20,
             options := countries },
    .drawString 50 600 "Subscribe to newsletter:",
    .field { kind := .checkbox, name := "newsletter", x := 200, y := 598,
             width := 20, height := 20 },
    .drawString 50 570 "I agree to the terms and conditions:",
    .field { kind := .checkbox, name := "terms", x := 250, y := 568,
             width := 20, height := 20, fieldFlags := some "required" },
    .drawString 50 500 "Note: Submit button would go here in a real form",
    .setFont "Helvetica" 8,
    .drawString 50 50 ("Form generated on " ++ now) ]

/-- The four generator operations, in the order `main` invokes them. -/
inductive Gen where
  | basic
  | text
  | choice
  | mixed
deriving DecidableEq, Repr

/-- Runs one generator: the operation sequence it emits given the clock
reading `now` (only the mixed form reads the clock). -/
def runGen (g : Gen) (now : String) : List DrawOp :=
  match g with
  | .basic => create_basic_form_pdf
  | .text => create_text_fields_pdf
  | .choice => create_choice_fields_pdf
  | .mixed => create_mixed_form_pdf now

/-- All fields emitted across the four documents of one run. -/
def allFields (now : String) : List FormField :=
  fieldsOf create_basic_form_pdf ++ fieldsOf create_text_fields_pdf
    ++ fieldsOf create_choice_fields_pdf ++ fieldsOf (create_mixed_form_pdf now)

/-- Order in which `main` invokes the four generators inside its single
`try` block: `basic-form.pdf`, `text-fields.pdf`, `choice-fields.pdf`,
`mixed-form.pdf`. -/
def mainSequence : List Gen := [Gen.basic, Gen.text, Gen.choice, Gen.mixed]

/-- Runs a list of generator calls in order inside one guarded block;
`outcome g` says whether the call for `g` returns normally or raises an
exception with the given message.  Returns the generators actually
attempted, in order, paired with the message of the first exception if
one was raised.  A call after the first raising call is never attempted,
since control leaves the block at the raise. -/
def runGenerators (outcome : Gen → Except String Unit) :
    List Gen → List Gen × Option String
  | [] => ([], none)
  | g :: rest =>
    match outcome g with
    | .ok _ =>
      let r := runGenerators outcome rest
      (g :: r.1, r.2)
    | .error e => ([g], some e)

/-- Observable result of one run of `main`: which generators were
attempted, the error line printed to stdout (if any), and the process
exit status. -/
structure MainResult where
  attempted : List Gen
  errorPrinted : Option String
  exitStatus : Nat
deriving DecidableEq, Repr

/-- The `main` function: runs the four generators sequentially inside a
single `try`; when an exception with message `e` escapes, it prints
`Error generating PDFs: {e}` and calls `sys.exit(1)`; otherwise it prints
the summary lines and returns normally (exit status 0). -/
def mainRun (outcome : Gen → Except String Unit) : MainResult :=
  match runGenerators outcome mainSequence with
  | (ran, none) => { attempted := ran, errorPrinted := none, exitStatus := 0 }
  | (ran, some e) =>
    { attempted := ran, errorPrinted := some ("Error generating PDFs: " ++ e),
      exitStatus := 1 }

/-- Helper: a guarded sequence whose prefix succeeds and whose next call
raises stops right after the raising call, reporting its message. -/
theorem runGenerators_first_error (outcome : Gen → Except String Unit)
    (pre post : List Gen) (g : Gen) (e : String)
    (hpre : ∀ x ∈ pre, outcome x = Except.ok ())
    (hg : outcome g = Except.error e) :
    runGenerators outcome (pre ++ g :: post) = (pre ++ [g], some e) := by
  induction pre with
  | nil => simp [runGenerators, hg]
  | cons a l ih =>
    have ha : outcome a = Except.ok () := hpre a (by simp)
    have hl : ∀ x ∈ l, outcome x = Except.ok () := fun x hx => hpre x (by simp [hx])
    simp [runGenerators, ha, ih hl]

/-- C5: `basic-form.pdf` contains exactly the fields `name` and `email`
(text), `subscribe` (checkbox), `gender` twice (a two-member radio
group), and `country` (choice), and its only choice field carries exactly
three options. -/
theorem basic_form_field_set :
    (fieldsOf create_basic_form_pdf).map (fun f => (f.name, f.kind))
      = [("name", FieldKind.textfield), ("email", FieldKind.textfield),
         ("subscribe", FieldKind.checkbox), ("gender", FieldKind.radio),
         ("gender", FieldKind.radio), ("country", FieldKind.choice)]
    ∧ ((fieldsOf create_basic_form_pdf).filter fun f => f.kind == FieldKind.choice).map
        (fun f => f.options.length) = [3] :=
  ⟨rfl, rfl⟩

/-- C10: both member widgets of the `gender` radio group in
`basic-form.pdf` are emitted with `selected := false`, so the group has
no default selection. -/
theorem gender_radio_no_default_selection :
    ((fieldsOf create_basic_form_pdf).filter fun f => f.name == "gender").map
        (fun f => (f.kind, f.selected))
      = [(FieldKind.radio, false), (FieldKind.radio, false)] :=
  rfl

/-- C3: in `text-fields.pdf`, `maxLengthField` has a 10-character limit,
`readOnly` has preset value "This cannot be changed" with the read-only
flag, `password` has the password flag, and `comments` has the multiline
flag. -/
theorem text_fields_flag_behavior :
    ((fieldsOf create_text_fields_pdf).filter fun f => f.name == "maxLengthField").map
        (fun f => f.maxlen) = [some 10]
    ∧ ((fieldsOf create_text_fields_pdf).filter fun f => f.name == "readOnly").map
        (fun f => (f.value, f.fieldFlags)) = [("This cannot be changed", some "readOnly")]
    ∧ ((fieldsOf create_text_fields_pdf).filter fun f => f.name == "password").map
        (fun f => f.fieldFlags) = [some "password"]
    ∧ ((fieldsOf create_text_fields_pdf).filter fun f => f.name == "comments").map
        (fun f => f.fieldFlags) = [some "multiline"] :=
  ⟨rfl, rfl, rfl, rfl⟩

/-- C4: in `mixed-form.pdf` (for every clock reading), `firstName`,
`lastName`, `emailAddress` and `terms` each carry the required flag, and
`age` has a 3-character limit. -/
theorem mixed_form_required_flags_and_age_maxlen (now : String) :
    ((fieldsOf (create_mixed_form_pdf now)).filter fun f => f.name == "firstName").map
        (fun f => f.fieldFlags) = [some "required"]
    ∧ ((fieldsOf (create_mixed_form_pdf now)).filter fun f => f.name == "lastName").map
        (fun f => f.fieldFlags) = [some "required"]
    ∧ ((fieldsOf (create_mixed_form_pdf now)).filter fun f => f.name == "emailAddress").map
        (fun f => f.fieldFlags) = [some "required"]
    ∧ ((fieldsOf (create_mixed_form_pdf now)).filter fun f => f.name == "terms").map
        (fun f => f.fieldFlags) = [some "required"]
    ∧ ((fieldsOf (create_mixed_form_pdf now)).filter fun f => f.name == "age").map
        (fun f => f.maxlen) = [some 3] :=
  ⟨rfl, rfl, rfl, rfl, rfl⟩

/-- C2: the `size` radio group of `choice-fields.pdf` has exactly four
member widgets, in order the (lowercased) values `s`, `m`, `l`, `xl`,
and the member produced from label `M` is the only one emitted with
`selected := true`. -/
theorem size_radio_group_four_members_m_selected :
    ((fieldsOf create_choice_fields_pdf).filter fun f => f.name == "size").map
        (fun f => (f.value, f.selected))
      = [("s", false), ("m", true), ("l", false), ("xl", false)]
    ∧ ((fieldsOf create_choice_fields_pdf).filter fun f => f.name == "size").countP
        (fun f => f.selected) = 1 :=
  ⟨by decide, by decide⟩

/-- C1 counterexample: the `state` dropdown of `choice-fields.pdf` does
not have 12 options; it has 13 (the blank entry plus the twelve states
Alabama through Idaho). -/
theorem state_dropdown_not_twelve_options :
    ¬ (((fieldsOf create_choice_fields_pdf).filter fun f => f.name == "state").map
          (fun f => f.options.length) = [12])
    ∧ ((fieldsOf create_choice_fields_pdf).filter fun f => f.name == "state").map
          (fun f => f.options.length) = [13] :=
  ⟨by decide, rfl⟩

/-- C1 amended: the `state` dropdown of `choice-fields.pdf` contains
exactly 13 options and the first option is a blank entry (empty value). -/
theorem state_dropdown_thirteen_options_blank_first :
    ((fieldsOf create_choice_fields_pdf).filter fun f => f.name == "state").map
        (fun f => (f.options.length, f.options.head?.map Prod.fst))
      = [(13, some "")] :=
  rfl

/-- C6: any two runs of the same generator emit the identical field
sequence regardless of the clock reading; the three documents without a
footer are identical operation-for-operation across runs, while the
mixed form's operations differ between runs whose formatted timestamps
differ (the varying footer line). -/
theorem generator_runs_deterministic_fields (g : Gen) (t1 t2 : String) :
    fieldsOf (runGen g t1) = fieldsOf (runGen g t2)
    ∧ (g ≠ Gen.mixed → runGen g t1 = runGen g t2)
    ∧ (g = Gen.mixed → t1 ≠ t2 → runGen g t1 ≠ runGen g t2) := by
  cases g with
  | basic => exact ⟨rfl, fun _ => rfl, fun h => nomatch h⟩
  | text => exact ⟨rfl, fun _ => rfl, fun h => nomatch h⟩
  | choice => exact ⟨rfl, fun _ => rfl, fun h => nomatch h⟩
  | mixed =>
    refine ⟨rfl, fun h => absurd rfl h, fun _ hne heq => hne ?_⟩
    simp only [runGen, create_mixed_form_pdf, List.cons.injEq, and_true, true_and,
      DrawOp.drawString.injEq] at heq
    have h2 := congrArg String.data heq
    rw [String.data_append, String.data_append] at h2
    exact String.ext (List.append_cancel_left h2)

/-- C6 witness: concrete instances of the three conjuncts, obtained from
the theorem at the mixed and basic generators with two distinct
timestamps. -/
theorem generator_runs_deterministic_fields_witness :
    fieldsOf (runGen Gen.mixed "2025-01-01 00:00:00")
        = fieldsOf (runGen Gen.mixed "2026-01-01 00:00:00")
    ∧ runGen Gen.basic "2025-01-01 00:00:00" = runGen Gen.basic "2026-01-01 00:00:00"
    ∧ runGen Gen.mixed "2025-01-01 00:00:00" ≠ runGen Gen.mixed "2026-01-01 00:00:00" :=
  ⟨(generator_runs_deterministic_fields Gen.mixed "2025-01-01 00:00:00"
      "2026-01-01 00:00:00").1,
   (generator_runs_deterministic_fields Gen.basic "2025-01-01 00:00:00"
      "2026-01-01 00:00:00").2.1 (by decide),
   (generator_runs_deterministic_fields Gen.mixed "2025-01-01 00:00:00"
      "2026-01-01 00:00:00").2.2 rfl (by decide)⟩

/-- C7: when every call before `g` in the guarded block returns normally
and the call for `g` raises an exception with message `e`, `main`
attempts exactly the generators up to and including `g` (none of the
remaining documents is attempted), prints the error line, and exits with
the non-zero status 1. -/
theorem main_aborts_on_first_exception (outcome : Gen → Except String Unit)
    (pre post : List Gen) (g : Gen) (e : String)
    (hsplit : mainSequence = pre ++ g :: post)
    (hpre : ∀ x ∈ pre, outcome x = Except.ok ())
    (hg : outcome g = Except.error e) :
    mainRun outcome
      = { attempted := pre ++ [g],
          errorPrinted := some ("Error generating PDFs: " ++ e),
          exitStatus := 1 } := by
  unfold mainRun
  rw [hsplit, runGenerators_first_error outcome pre post g e hpre hg]

/-- C7 witness: a run where the third generator (`choice-fields.pdf`)
raises "disk full": the first three generators run, the mixed form is
never attempted, the error line is printed and the exit status is 1. -/
theorem main_aborts_on_first_exception_witness :
    mainSequence = [Gen.basic, Gen.text] ++ Gen.choice :: [Gen.mixed]
    ∧ mainRun (fun g => if g == Gen.choice then Except.error "disk full" else Except.ok ())
        = { attempted := [Gen.basic, Gen.text, Gen.choice],
            errorPrinted := some "Error generating PDFs: disk full",
            exitStatus := 1 } :=
  ⟨rfl,
   main_aborts_on_first_exception
     (fun g => if g == Gen.choice then Except.error "disk full" else Except.ok ())
     [Gen.basic, Gen.text] [Gen.mixed] Gen.choice "disk full" rfl
     (by intro x hx; fin_cases hx <;> rfl) rfl⟩

/-- C8: every choice field emitted by any of the four generators is
created with a default value that is either empty or the value component
of one of its own option pairs. -/
theorem choice_default_value_valid (now : String) (f : FormField)
    (hf : f ∈ allFields now) (hk : f.kind = FieldKind.choice) :
    f.value = "" ∨ f.value ∈ f.options.map Prod.fst := by
  have hf2 : f ∈ allFields "" := hf
  have hall : ∀ x ∈ allFields "",
      x.kind = FieldKind.choice → (x.value = "" ∨ x.value ∈ x.options.map Prod.fst) := by
    decide
  exact hall f hf2 hk

/-- C8 witness: the `country` dropdown of `basic-form.pdf` is among the
emitted fields and its default value `us` matches one of its options. -/
theorem choice_default_value_valid_witness :
    ({ kind := FieldKind.choice, name := "country", tooltip := some "Select your country",
       value := "us", x := 150, y := 495, width := 200, height := 20,
       options := [("us", "United States"), ("ca", "Canada"),
                   ("uk", "United Kingdom")] } : FormField) ∈ allFields "2025-01-01 00:00:00"
    ∧ (("us" : String) = ""
        ∨ ("us" : String) ∈ ([("us", "United States"), ("ca", "Canada"),
                              ("uk", "United Kingdom")].map Prod.fst)) :=
  ⟨by decide,
   choice_default_value_valid "2025-01-01 00:00:00"
     { kind := FieldKind.choice, name := "country", tooltip := some "Select your country",
       value := "us", x := 150, y := 495, width := 200, height := 20,
       options := [("us", "United States"), ("ca", "Canada"),
                   ("uk", "United Kingdom")] }
     (by decide) rfl⟩

/-- C9: every widget emitted by any of the four generators lies fully
within the 612 by 792 letter page: its box has non-negative origin and
its far corner stays within the page. -/
theorem widgets_within_page_bounds (now : String) (f : FormField)
    (hf : f ∈ allFields now) :
    0 ≤ f.x ∧ 0 ≤ f.y ∧ f.x + f.width ≤ 612 ∧ f.y + f.height ≤ 792 := by
  have hf2 : f ∈ allFields "" := hf
  have hall : ∀ x ∈ allFields "",
      0 ≤ x.x ∧ 0 ≤ x.y ∧ x.x + x.width ≤ 612 ∧ x.y + x.height ≤ 792 := by
    decide
  exact hall f hf2

/-- C9 witness: the `name` text field of `basic-form.pdf` is among the
emitted fields and its box from (150, 695) to (450, 715) is inside the
page. -/
theorem widgets_within_page_bounds_witness :
    ({ kind := FieldKind.textfield, name := "name", tooltip := some "Enter your name",
       x := 150, y := 695, width := 300, height := 20 } : FormField)
        ∈ allFields "2025-01-01 00:00:00"
    ∧ (0 ≤ (150 : Int) ∧ 0 ≤ (695 : Int)
        ∧ (150 : Int) + 300 ≤ 612 ∧ (695 : Int) + 20 ≤ 792) :=
  ⟨by decide,
   widgets_within_page_bounds "2025-01-01 00:00:00"
     { kind := FieldKind.textfield, name := "name", tooltip := some "Enter your name",
       x := 150, y := 695, width := 300, height := 20 }
     (by decide)⟩
